import Mathlib

/-!
Shallow embedding of `src/scripts/validate_bitcoin_protocol.py`.

The script defines a registry `BIP_STANDARDS` of four BIP standards, each
with a detection regex, and a function `validate_protocol` that scans an
input string with `re.search(..., re.IGNORECASE)` for each registry entry,
building a structured validation report.  The command-line wrapper `main`
prints the report and exits with status 1 when the report is not compliant.

Python regular expressions are embedded as a small regex datatype with a
Brzozowski-derivative matcher; `re.IGNORECASE` is folded into the character
predicates of each pattern (a literal letter matches either case, the hex
class `[0-9a-f]` also accepts `A`-`F`).  `re.search` semantics (match at any
position) is the function `Regex.rsearch`.
-/

/-- Regular expressions over characters: empty language, empty string,
a character class given by a predicate, concatenation, alternation, star. -/
inductive Regex where
  | emp : Regex
  | eps : Regex
  | chr : (Char → Bool) → Regex
  | cat : Regex → Regex → Regex
  | alt : Regex → Regex → Regex
  | star : Regex → Regex

/-- Does the regex accept the empty string? -/
def Regex.nullable : Regex → Bool
  | .emp => false
  | .eps => true
  | .chr _ => false
  | .cat r₁ r₂ => r₁.nullable && r₂.nullable
  | .alt r₁ r₂ => r₁.nullable || r₂.nullable
  | .star _ => true

/-- Brzozowski derivative of a regex with respect to a character. -/
def Regex.deriv : Regex → Char → Regex
  | .emp, _ => .emp
  | .eps, _ => .emp
  | .chr p, c => if p c then .eps else .emp
  | .cat r₁ r₂, c =>
      if r₁.nullable then .alt (.cat (r₁.deriv c) r₂) (r₂.deriv c)
      else .cat (r₁.deriv c) r₂
  | .alt r₁ r₂, c => .alt (r₁.deriv c) (r₂.deriv c)
  | .star r, c => .cat (r.deriv c) (.star r)

/-- Does the regex match some prefix of the character list? -/
def Regex.matchesPref : Regex → List Char → Bool
  | r, [] => r.nullable
  | r, c :: cs => r.nullable || (r.deriv c).matchesPref cs

/-- `re.search` semantics: does the regex match a substring starting at any
position of the character list? -/
def Regex.rsearch : Regex → List Char → Bool
  | r, [] => r.nullable
  | r, c :: cs => r.matchesPref (c :: cs) || r.rsearch cs

/-- The regex `X+`, i.e. `X` followed by `X*`. -/
def Regex.plus (r : Regex) : Regex := .cat r (.star r)

/-- A literal character under `re.IGNORECASE`: matches either letter case. -/
def Regex.charCI (c : Char) : Regex := .chr fun x => x.toLower == c.toLower

/-- A literal string under `re.IGNORECASE`: each character matched
case-insensitively, in sequence. -/
def Regex.strCI (s : String) : Regex :=
  s.data.foldr (fun c r => .cat (Regex.charCI c) r) .eps

/-- The character class `[A-Za-z0-9]` (unchanged under `re.IGNORECASE`). -/
def isAsciiAlnum (c : Char) : Bool :=
  (('A' ≤ c && c ≤ 'Z') || ('a' ≤ c && c ≤ 'z') || ('0' ≤ c && c ≤ '9'))

/-- The character class `[0-9a-f]` under `re.IGNORECASE`: also accepts
upper-case hex letters. -/
def isHexCI (c : Char) : Bool :=
  (('0' ≤ c && c ≤ '9') || ('a' ≤ c && c ≤ 'f') || ('A' ≤ c && c ≤ 'F'))

/-- The character class `[^\x7d]`: any character other than a closing brace. -/
def isNotRBrace (c : Char) : Bool := c != '\x7d'

/-- Python substring test `needle in hay` on character lists. -/
def containsSubstr (hay needle : List Char) : Bool :=
  needle.isPrefixOf hay ||
    match hay with
    | [] => false
    | _ :: t => containsSubstr t needle

/-- Metadata of one registry entry of `BIP_STANDARDS`: display name,
detection regex (with `re.IGNORECASE` folded in), description. -/
structure BipInfo where
  name : String
  validation_regex : Regex
  description : String

/-- `BIP-341` entry: Taproot, pattern `tr\([A-Za-z0-9]+,\{[^\x7d]+\}\)`. -/
def bip341 : BipInfo :=
  { name := "Taproot"
    validation_regex :=
      .cat (Regex.strCI "tr(")
        (.cat (Regex.plus (.chr isAsciiAlnum))
          (.cat (Regex.charCI ',')
            (.cat (Regex.charCI '\x7b')
              (.cat (Regex.plus (.chr isNotRBrace))
                (.cat (Regex.charCI '\x7d') (Regex.charCI ')'))))))
    description := "Taproot output spending conditions" }

/-- `BIP-342` entry: Tapscript, pattern `OP_CHECKSIG|OP_CHECKSIGVERIFY`. -/
def bip342 : BipInfo :=
  { name := "Tapscript"
    validation_regex :=
      .alt (Regex.strCI "OP_CHECKSIG") (Regex.strCI "OP_CHECKSIGVERIFY")
    description := "Tapscript validation rules" }

/-- `BIP-174` entry: PSBT, pattern `psbt:[0-9a-f]+`. -/
def bip174 : BipInfo :=
  { name := "PSBT"
    validation_regex := .cat (Regex.strCI "psbt:") (Regex.plus (.chr isHexCI))
    description := "Partially Signed Bitcoin Transaction" }

/-- `BIP-370` entry: PSBT Version 2, pattern `psbt:v2:[0-9a-f]+`. -/
def bip370 : BipInfo :=
  { name := "PSBT Version 2"
    validation_regex := .cat (Regex.strCI "psbt:v2:") (Regex.plus (.chr isHexCI))
    description := "PSBT Version 2 format" }

/-- The registry `BIP_STANDARDS`, in Python dict insertion order. -/
def BIP_STANDARDS : List (String × BipInfo) :=
  [("BIP-341", bip341), ("BIP-342", bip342), ("BIP-174", bip174), ("BIP-370", bip370)]

/-- The per-standard `validation_detail` dict built for a matched standard. -/
structure ValidationDetail where
  standard : String
  name : String
  compliant : Bool
  description : String
  warnings : List String
deriving DecidableEq, Repr

/-- One element of `results["details"]`: either a per-standard validation
detail or the single error dict appended when no standard matched. -/
inductive Detail where
  | validation : ValidationDetail → Detail
  | error : String → Detail
deriving DecidableEq, Repr

/-- The `results` dict returned by `validate_protocol`.  The `warning` key is
only present when set, hence `Option String`. -/
structure ValidationReport where
  validation_performed : Bool
  timestamp : String
  standards_checked : List String
  compliant : Bool
  details : List Detail
  warning : Option String
deriving DecidableEq, Repr

/-- Warning message appended for `BIP-341` when `SILENT_LEAF` is absent. -/
def silentLeafMsg : String :=
  "Missing recommended SILENT_LEAF pattern for privacy-preserving Taproot scripts"

/-- Warning message appended for `BIP-174` when `unsigned_tx` is absent. -/
def unsignedTxMsg : String := "PSBT should include unsigned_tx field"

/-- The error message of the single error detail for unmatched input. -/
def noStandardMsg : String :=
  "No recognized Bitcoin protocol standards found in input"

/-- The fixed advisory string set as `results["warning"]`. -/
def advisoryMsg : String := "Protocol validation passed with warnings"

/-- Builds the `validation_detail` dict for a matched standard, applying the
two standard-specific heuristic checks of the source: the `BIP-341` check
tests the exact (case-sensitive) substring `SILENT_LEAF`, the `BIP-174`
check tests `unsigned_tx` against the lower-cased input. -/
def mkDetail (input_text : String) (bip_id : String) (info : BipInfo) : ValidationDetail :=
  let w1 :=
    if bip_id == "BIP-341" && !containsSubstr input_text.data "SILENT_LEAF".data then
      [silentLeafMsg]
    else []
  let w2 :=
    if bip_id == "BIP-174" &&
        !containsSubstr (input_text.data.map Char.toLower) "unsigned_tx".data then
      [unsignedTxMsg]
    else []
  { standard := bip_id
    name := info.name
    compliant := true
    description := info.description
    warnings := w1 ++ w2 }

/-- The scan loop of `validate_protocol`: for each registry entry in order,
if its regex matches anywhere in the input, append the id to
`standards_checked` and the detail to `details`. -/
def runChecks (input_text : String) : List (String × BipInfo) → List String × List Detail
  | [] => ([], [])
  | (bip_id, info) :: rest =>
    let res := runChecks input_text rest
    if Regex.rsearch info.validation_regex input_text.data then
      (bip_id :: res.1, Detail.validation (mkDetail input_text bip_id info) :: res.2)
    else res

/-- The generator-any test
`any(warning for detail in results["details"] for warning in detail.get("warnings", []))`:
true iff some detail has a non-empty warnings list (the error dict has no
`warnings` key, so `detail.get("warnings", [])` is empty for it). -/
def hasAnyWarning (ds : List Detail) : Bool :=
  ds.any fun d =>
    match d with
    | .validation v => !v.warnings.isEmpty
    | .error _ => false

/-- `validate_protocol`: scans the input against every registry entry, then
sets overall compliance: if nothing matched, `compliant := false` and a
single error detail is appended; otherwise, if any detail carries warnings,
the fixed advisory string is set as `warning`. -/
def validate_protocol (input_text : String) : ValidationReport :=
  let checked := runChecks input_text BIP_STANDARDS
  if checked.1.isEmpty then
    { validation_performed := true
      timestamp := "2025-03-10T08:45:00Z"
      standards_checked := checked.1
      compliant := false
      details := checked.2 ++ [Detail.error noStandardMsg]
      warning := none }
  else if hasAnyWarning checked.2 then
    { validation_performed := true
      timestamp := "2025-03-10T08:45:00Z"
      standards_checked := checked.1
      compliant := true
      details := checked.2
      warning := some advisoryMsg }
  else
    { validation_performed := true
      timestamp := "2025-03-10T08:45:00Z"
      standards_checked := checked.1
      compliant := true
      details := checked.2
      warning := none }

/-- The command-line wrapper `main`, modelled as the process exit status for
a given `--input` value: `sys.exit(1)` when the report is not compliant,
normal termination (status 0) otherwise. -/
def Script.main (input : String) : Nat :=
  if (validate_protocol input).compliant then 0 else 1

/-! ### Characterization lemmas -/

/-- The scan loop returns exactly the matched entries, in registry order:
the ids of the entries whose regex matches, and the corresponding details. -/
theorem runChecks_eq (s : String) (l : List (String × BipInfo)) :
    runChecks s l =
      ((l.filter fun p => (p.2.validation_regex).rsearch s.data).map Prod.fst,
       (l.filter fun p => (p.2.validation_regex).rsearch s.data).map
         fun p => Detail.validation (mkDetail s p.1 p.2)) := by
  induction l with
  | nil => rfl
  | cons p rest ih =>
    obtain ⟨bip_id, info⟩ := p
    simp only [runChecks, ih, List.filter_cons]
    by_cases h : Regex.rsearch info.validation_regex s.data <;> simp [h]

/-- `standards_checked` is always the first component of the scan. -/
theorem validate_protocol_standards_checked (s : String) :
    (validate_protocol s).standards_checked = (runChecks s BIP_STANDARDS).1 := by
  simp only [validate_protocol]
  split
  · rfl
  · split <;> rfl

/-- `timestamp` is the fixed constant in every branch. -/
theorem validate_protocol_timestamp (s : String) :
    (validate_protocol s).timestamp = "2025-03-10T08:45:00Z" := by
  simp only [validate_protocol]
  split
  · rfl
  · split <;> rfl

/-- `validation_performed` is true in every branch. -/
theorem validate_protocol_performed (s : String) :
    (validate_protocol s).validation_performed = true := by
  simp only [validate_protocol]
  split
  · rfl
  · split <;> rfl

/-- If nothing matched, both components of the scan are empty. -/
theorem runChecks_fst_nil (s : String)
    (h : (runChecks s BIP_STANDARDS).1 = []) : (runChecks s BIP_STANDARDS).2 = [] := by
  rw [runChecks_eq] at h ⊢
  simp only [List.map_eq_nil_iff] at h ⊢
  exact h

/-- A per-standard detail occurs in the report's details iff it is the
detail built for some registry entry whose regex matched. -/
theorem validation_mem_details (s : String) (v : ValidationDetail) :
    Detail.validation v ∈ (validate_protocol s).details ↔
      ∃ p ∈ BIP_STANDARDS,
        (p.2.validation_regex).rsearch s.data = true ∧ v = mkDetail s p.1 p.2 := by
  have hmem : Detail.validation v ∈ (runChecks s BIP_STANDARDS).2 ↔
      ∃ p ∈ BIP_STANDARDS,
        (p.2.validation_regex).rsearch s.data = true ∧ v = mkDetail s p.1 p.2 := by
    rw [runChecks_eq]
    simp only [List.mem_map, List.mem_filter]
    constructor
    · rintro ⟨p, ⟨hp, hs⟩, heq⟩
      exact ⟨p, hp, hs, (Detail.validation.injEq _ _).mp heq.symm⟩
    · rintro ⟨p, hp, hs, hv⟩
      exact ⟨p, ⟨hp, hs⟩, by rw [hv]⟩
  simp only [validate_protocol]
  split
  · rw [← hmem]
    constructor
    · intro h
      rcases List.mem_append.mp h with h' | h'
      · exact h'
      · simp at h'
    · intro h
      exact List.mem_append_left _ h
  · split <;> exact hmem

/-! ### Claims -/

/-- C1: for every input string, if any ValidationDetail in the returned
report's details has a non-empty warnings sequence, then the report's
top-level warning field is the fixed advisory string
"Protocol validation passed with warnings" and compliant remains true. -/
theorem C1_warning_policy (s : String)
    (h : ∃ v, Detail.validation v ∈ (validate_protocol s).details ∧ v.warnings ≠ []) :
    (validate_protocol s).warning = some advisoryMsg ∧
      (validate_protocol s).compliant = true := by
  obtain ⟨v, hv, hw⟩ := h
  obtain ⟨p, hp, hs, hveq⟩ := (validation_mem_details s v).mp hv
  have hmem2 : Detail.validation v ∈ (runChecks s BIP_STANDARDS).2 := by
    rw [runChecks_eq]
    exact List.mem_map.mpr ⟨p, List.mem_filter.mpr ⟨hp, hs⟩, by rw [hveq]⟩
  have hne : (runChecks s BIP_STANDARDS).1.isEmpty = false := by
    cases hne' : (runChecks s BIP_STANDARDS).1.isEmpty
    · rfl
    · exfalso
      have h2 := runChecks_fst_nil s (List.isEmpty_iff.mp hne')
      rw [h2] at hmem2
      simp at hmem2
  have hwarn : hasAnyWarning (runChecks s BIP_STANDARDS).2 = true := by
    apply List.any_eq_true.mpr
    refine ⟨Detail.validation v, hmem2, ?_⟩
    simpa using hw
  simp [validate_protocol, hne, hwarn]

/-- C1 witness: the input "psbt:0123456789abcdef" produces a BIP-174 detail
with a non-empty warnings list, hence advisory warning and compliant. -/
theorem C1_warning_policy_witness :
    (validate_protocol "psbt:0123456789abcdef").warning = some advisoryMsg ∧
      (validate_protocol "psbt:0123456789abcdef").compliant = true :=
  C1_warning_policy "psbt:0123456789abcdef"
    ⟨⟨"BIP-174", "PSBT", true, "Partially Signed Bitcoin Transaction",
      [unsignedTxMsg]⟩, by decide, by decide⟩

/-- C2: for every input string that matches none of the registered detection
patterns, the report has compliant = false, details containing exactly the
one "no recognized standard" error entry, and standards_checked empty. -/
theorem C2_no_match (s : String)
    (h : ∀ p ∈ BIP_STANDARDS, (p.2.validation_regex).rsearch s.data = false) :
    (validate_protocol s).compliant = false ∧
      (validate_protocol s).details = [Detail.error noStandardMsg] ∧
      (validate_protocol s).standards_checked = [] := by
  have hfil : (BIP_STANDARDS.filter fun p => (p.2.validation_regex).rsearch s.data) = [] := by
    rw [List.filter_eq_nil_iff]
    intro p hp
    simp [h p hp]
  have h1 : (runChecks s BIP_STANDARDS).1 = [] := by rw [runChecks_eq]; simp [hfil]
  have h2 : (runChecks s BIP_STANDARDS).2 = [] := runChecks_fst_nil s h1
  simp [validate_protocol, h1, h2]

/-- C2 witness: "no markers here" matches no registered pattern. -/
theorem C2_no_match_witness :
    (validate_protocol "no markers here").compliant = false ∧
      (validate_protocol "no markers here").details = [Detail.error noStandardMsg] ∧
      (validate_protocol "no markers here").standards_checked = [] :=
  C2_no_match "no markers here" (by decide)

/-- C3: for every input containing a substring matching a registered
standard's detection pattern (case-insensitively, which the pattern itself
encodes), that standard's id appears exactly once in standards_checked. -/
theorem C3_checked_once (s : String) (bip_id : String) (info : BipInfo)
    (hmem : (bip_id, info) ∈ BIP_STANDARDS)
    (hmatch : (info.validation_regex).rsearch s.data = true) :
    ((validate_protocol s).standards_checked).count bip_id = 1 := by
  rw [validate_protocol_standards_checked, runChecks_eq]
  have hfull : (BIP_STANDARDS.map Prod.fst).Nodup := by decide
  have hnd : ((BIP_STANDARDS.filter fun p =>
      (p.2.validation_regex).rsearch s.data).map Prod.fst).Nodup :=
    hfull.sublist ((List.filter_sublist _).map Prod.fst)
  have hin : bip_id ∈ (BIP_STANDARDS.filter fun p =>
      (p.2.validation_regex).rsearch s.data).map Prod.fst :=
    List.mem_map.mpr ⟨(bip_id, info), List.mem_filter.mpr ⟨hmem, hmatch⟩, rfl⟩
  exact List.count_eq_one_of_mem hnd hin

/-- C3 witness: "psbt:0f" matches the BIP-174 pattern; its id is counted
exactly once. -/
theorem C3_checked_once_witness :
    ((validate_protocol "psbt:0f").standards_checked).count "BIP-174" = 1 :=
  C3_checked_once "psbt:0f" "BIP-174" bip174
    (by unfold BIP_STANDARDS; exact .tail _ (.tail _ (.head _))) (by decide)

/-- C4: the command-line wrapper exits with a non-zero status exactly when
the report's compliant field is false, and with status 0 otherwise. -/
theorem C4_exit_code (s : String) :
    (Script.main s ≠ 0 ↔ (validate_protocol s).compliant = false) ∧
      (Script.main s = 0 ↔ (validate_protocol s).compliant = true) := by
  unfold Script.main
  cases h : (validate_protocol s).compliant <;> simp [h]

/-- C5: for the input "tr(KEY,\x7bOTHER\x7d)", the report's standards_checked
includes BIP-341, the BIP-341 detail's warnings contains the
missing-SILENT_LEAF message, the top-level warning is set, and compliant is
true. -/
theorem C5_taproot_example :
    "BIP-341" ∈ (validate_protocol "tr(KEY,\x7bOTHER\x7d)").standards_checked ∧
    (∃ v, Detail.validation v ∈ (validate_protocol "tr(KEY,\x7bOTHER\x7d)").details ∧
      v.standard = "BIP-341" ∧ silentLeafMsg ∈ v.warnings) ∧
    (validate_protocol "tr(KEY,\x7bOTHER\x7d)").warning = some advisoryMsg ∧
    (validate_protocol "tr(KEY,\x7bOTHER\x7d)").compliant = true :=
  ⟨by decide,
   ⟨⟨"BIP-341", "Taproot", true, "Taproot output spending conditions",
     [silentLeafMsg]⟩, by decide, by decide, by decide⟩,
   by decide, by decide⟩

/-- C6: two calls of validate_protocol on identical input yield identical
standards_checked sequences and identical compliant values (the embedding is
a pure function of the input, mirroring the side-effect-free source). -/
theorem C6_idempotent (x : String) :
    (validate_protocol x).standards_checked = (validate_protocol x).standards_checked ∧
      (validate_protocol x).compliant = (validate_protocol x).compliant :=
  ⟨rfl, rfl⟩

/-- Both components of the scan have the same length: one id and one detail
per matched standard. -/
theorem runChecks_length (s : String) (l : List (String × BipInfo)) :
    (runChecks s l).1.length = (runChecks s l).2.length := by
  rw [runChecks_eq]
  simp

/-- C7: validate_protocol is total: it is a function defined on all input
strings (hence never raises), always reports validation_performed = true,
reports compliant = false exactly when no standard matched, and always
returns a non-empty details list. -/
theorem C7_total (s : String) :
    (validate_protocol s).validation_performed = true ∧
    ((validate_protocol s).compliant = false ↔
      (validate_protocol s).standards_checked = []) ∧
    (validate_protocol s).details ≠ [] := by
  refine ⟨validate_protocol_performed s, ?_, ?_⟩
  · simp only [validate_protocol]
    split
    · rename_i hemp
      simp_all [List.isEmpty_iff]
    · rename_i hemp
      split <;> simp_all [List.isEmpty_iff]
  · simp only [validate_protocol]
    split
    · simp
    · rename_i hemp
      have hlen := runChecks_length s BIP_STANDARDS
      split <;>
      · intro hnil
        simp only [ValidationReport.details] at hnil
        rw [hnil] at hlen
        simp [List.isEmpty_iff, List.length_eq_zero] at hemp hlen
        exact hemp hlen

/-- C8: every per-standard detail in any returned report has
compliant = true. -/
theorem C8_detail_compliant (s : String) (v : ValidationDetail)
    (h : Detail.validation v ∈ (validate_protocol s).details) :
    v.compliant = true := by
  obtain ⟨p, hp, hs, hveq⟩ := (validation_mem_details s v).mp h
  rw [hveq]
  rfl

/-- C8 witness: the BIP-174 detail for "psbt:0123456789abcdef" has
compliant = true. -/
theorem C8_detail_compliant_witness :
    (⟨"BIP-174", "PSBT", true, "Partially Signed Bitcoin Transaction",
      [unsignedTxMsg]⟩ : ValidationDetail).compliant = true :=
  C8_detail_compliant "psbt:0123456789abcdef"
    ⟨"BIP-174", "PSBT", true, "Partially Signed Bitcoin Transaction",
      [unsignedTxMsg]⟩ (by decide)

/-- C9: the timestamp field of every report is the fixed constant
"2025-03-10T08:45:00Z", and hence two calls with identical input yield
fully identical reports. -/
theorem C9_fixed_timestamp (s : String) :
    (validate_protocol s).timestamp = "2025-03-10T08:45:00Z" ∧
      validate_protocol s = validate_protocol s :=
  ⟨validate_protocol_timestamp s, rfl⟩

/-- C10: the heuristics treat letter case asymmetrically.  (a) Whenever the
BIP-341 pattern matches but the exact upper-case substring SILENT_LEAF is
absent — even if a differently-cased variant is present — the BIP-341 detail
carries the missing-SILENT_LEAF warning.  (b) Whenever the BIP-174 pattern
matches and the lower-cased input contains unsigned_tx (i.e. unsigned_tx is
present in any letter case), the BIP-174 detail carries no unsigned_tx
warning. -/
theorem C10_case_asymmetry :
    (∀ s : String, (bip341.validation_regex).rsearch s.data = true →
      containsSubstr s.data "SILENT_LEAF".data = false →
      ∃ v, Detail.validation v ∈ (validate_protocol s).details ∧
        v.standard = "BIP-341" ∧ silentLeafMsg ∈ v.warnings) ∧
    (∀ s : String, (bip174.validation_regex).rsearch s.data = true →
      containsSubstr (s.data.map Char.toLower) "unsigned_tx".data = true →
      ∀ v, Detail.validation v ∈ (validate_protocol s).details →
        v.standard = "BIP-174" → silentLeafMsg ∉ v.warnings ∧ unsignedTxMsg ∉ v.warnings) := by
  constructor
  · intro s hmatch habsent
    refine ⟨mkDetail s "BIP-341" bip341, ?_, rfl, ?_⟩
    · apply (validation_mem_details s _).mpr
      exact ⟨("BIP-341", bip341), by unfold BIP_STANDARDS; exact .head _, hmatch, rfl⟩
    · simp [mkDetail, habsent]
  · intro s hmatch hpresent v hv hstd
    obtain ⟨p, hp, hs, hveq⟩ := (validation_mem_details s v).mp hv
    have hfst : p.1 = "BIP-174" := by rw [hveq] at hstd; exact hstd
    have hpeq : p = ("BIP-174", bip174) := by
      have hp' : p = ("BIP-341", bip341) ∨ p = ("BIP-342", bip342) ∨
          p = ("BIP-174", bip174) ∨ p = ("BIP-370", bip370) := by
        simpa [BIP_STANDARDS] using hp
      rcases hp' with h | h | h | h
      · rw [h] at hfst; exact absurd hfst (by decide)
      · rw [h] at hfst; exact absurd hfst (by decide)
      · exact h
      · rw [h] at hfst; exact absurd hfst (by decide)
    rw [hveq, hpeq]
    simp [mkDetail, hpresent]

/-- C10 witness: "tr(a,\x7bb\x7d) silent_leaf" contains only a lower-case
variant, so the warning is still appended; "psbt:ab UNSIGNED_TX" contains an
upper-case variant, and no unsigned_tx warning is appended. -/
theorem C10_case_asymmetry_witness :
    (∃ v, Detail.validation v ∈
        (validate_protocol "tr(a,\x7bb\x7d) silent_leaf").details ∧
      v.standard = "BIP-341" ∧ silentLeafMsg ∈ v.warnings) ∧
    (silentLeafMsg ∉ (⟨"BIP-174", "PSBT", true,
        "Partially Signed Bitcoin Transaction", []⟩ : ValidationDetail).warnings ∧
      unsignedTxMsg ∉ (⟨"BIP-174", "PSBT", true,
        "Partially Signed Bitcoin Transaction", []⟩ : ValidationDetail).warnings) :=
  ⟨C10_case_asymmetry.1 "tr(a,\x7bb\x7d) silent_leaf" (by decide) (by decide),
   C10_case_asymmetry.2 "psbt:ab UNSIGNED_TX" (by decide) (by decide)
     ⟨"BIP-174", "PSBT", true, "Partially Signed Bitcoin Transaction", []⟩
     (by decide) (by decide)⟩
